import Mathlib

/-
  Verification of the ride-sharing demonstration program (src/main.cpp).

  Shallow embedding conventions:
  - C++ `double` is modelled as `ℚ`; every numeric literal of the program
    (2.0, 3.5, 5.0, 10.5, 25.0, ...) is exactly representable, so the
    rational model agrees with the IEEE-754 behaviour of the program on
    all values that appear in it.
  - `std::cout << ... << std::endl` sequences are modelled as lists of
    output lines (`List String`); a leading "\n" in a printed string is
    modelled as an initial empty line.
  - Mutating member functions become functions returning the updated
    object; when a claim is about the order of side effects, the function
    is given as an explicit event list (`Event`) which is then folded into
    (state, output).
-/

namespace RideSharing

/-- The two concrete subclasses of the abstract `Ride` class. -/
inductive RideKind where
  | standard
  | premium
deriving DecidableEq

/-- Fields of the C++ `Ride` base class (src/main.cpp lines 10-17), plus the
dynamic type tag that C++ keeps in the vtable pointer. -/
structure Ride where
  kind : RideKind
  rideID : String
  pickupLocation : String
  dropoffLocation : String
  distance : ℚ
  fare : ℚ
deriving DecidableEq

/-- Constant `StandardRide::RATE_PER_MILE` (src/main.cpp line 54). -/
def STANDARD_RATE_PER_MILE : ℚ := 2.0

/-- Constant `PremiumRide::RATE_PER_MILE` (src/main.cpp line 73). -/
def PREMIUM_RATE_PER_MILE : ℚ := 3.5

/-- Constant `PremiumRide::PREMIUM_SURCHARGE` (src/main.cpp line 74). -/
def PREMIUM_SURCHARGE : ℚ := 5.0

/-- Virtual `calculateFare` (src/main.cpp lines 63-65 and 83-85), dispatched
on the dynamic type.  It returns the updated object together with the lines
it prints; both bodies are a single assignment to `fare`, so the printed
output is `[]`. -/
def Ride.calculateFare (r : Ride) : Ride × List String :=
  match r.kind with
  | .standard => ({ r with fare := r.distance * STANDARD_RATE_PER_MILE }, [])
  | .premium => ({ r with fare := r.distance * PREMIUM_RATE_PER_MILE + PREMIUM_SURCHARGE }, [])

/-- The `Ride` base-class constructor (src/main.cpp lines 19-20): stores the
four arguments and initialises `fare` to `0.0`. -/
def mkRideBase (kind : RideKind) (id pickup dropoff : String) (dist : ℚ) : Ride :=
  { kind := kind, rideID := id, pickupLocation := pickup, dropoffLocation := dropoff,
    distance := dist, fare := 0 }

/-- The `StandardRide` constructor (src/main.cpp lines 57-60): base
construction followed by one call to `calculateFare`. -/
def mkStandardRide (id pickup dropoff : String) (dist : ℚ) : Ride :=
  ((mkRideBase .standard id pickup dropoff dist).calculateFare).1

/-- The `PremiumRide` constructor (src/main.cpp lines 77-80): base
construction followed by one call to `calculateFare`. -/
def mkPremiumRide (id pickup dropoff : String) (dist : ℚ) : Ride :=
  ((mkRideBase .premium id pickup dropoff dist).calculateFare).1

/-- Accessor `Ride::getFare` (src/main.cpp lines 42-44). -/
def Ride.getFare (r : Ride) : ℚ := r.fare

/-- Accessor `Ride::getRideID` (src/main.cpp lines 46-48). -/
def Ride.getRideID (r : Ride) : String := r.rideID

/-- The decimal digits of `n`, padded or truncated on the left to exactly
`w` characters: the low `w` decimal digits, most significant first.  Used
to model the fixed-precision fractional part printed by
`std::fixed << std::setprecision`. -/
def padDigits : Nat → Nat → List Char
  | 0, _ => []
  | w + 1, n => padDigits w (n / 10) ++ [Char.ofNat (48 + n % 10)]

/-- Fixed-point decimal rendering of a rational, modelling what
`std::cout << std::fixed << std::setprecision prec << x` prints for a
`double` `x`: the value rounded to `prec` decimal places, with exactly
`prec` digits after the decimal point. -/
def formatFixed (prec : Nat) (q : ℚ) : String :=
  let scaled : Int := round (q * (10 : ℚ) ^ prec)
  let sign : String := if scaled < 0 then "-" else ""
  let n : Nat := scaled.natAbs
  if prec = 0 then
    sign ++ toString n
  else
    sign ++ toString (n / 10 ^ prec) ++ "." ++ String.mk (padDigits prec (n % 10 ^ prec))

/-- Method `Ride::rideDetails` (src/main.cpp lines 34-40): five printed lines;
distance with precision 1, fare with precision 2. -/
def Ride.rideDetails (r : Ride) : List String :=
  ["Ride ID: " ++ r.rideID,
   "  Pickup: " ++ r.pickupLocation,
   "  Dropoff: " ++ r.dropoffLocation,
   "  Distance: " ++ formatFixed 1 r.distance ++ " miles",
   "  Fare: $" ++ formatFixed 2 r.fare]

/-- Fields of the C++ `Driver` class (src/main.cpp lines 89-94). -/
structure Driver where
  driverID : String
  name : String
  rating : ℚ
  assignedRides : List Ride

/-- Method `Driver::addRide` (src/main.cpp lines 102-104): push_back at the end of
`assignedRides`. -/
def Driver.addRide (d : Driver) (ride : Ride) : Driver :=
  { d with assignedRides := d.assignedRides ++ [ride] }

/-- Method `Driver::getDriverInfo` (src/main.cpp lines 107-122): identity header,
ride count, then either the "no rides" sentinel or the details of every ride in
insertion order, each followed by a separator line. -/
def Driver.getDriverInfo (d : Driver) : List String :=
  ["",
   "--- Driver Details ---",
   "Driver ID: " ++ d.driverID,
   "Name: " ++ d.name,
   "Rating: " ++ formatFixed 1 d.rating ++ "/5.0",
   "Completed Rides (" ++ toString d.assignedRides.length ++ "):"] ++
  (if d.assignedRides.isEmpty then
    ["  No rides completed yet."]
  else
    d.assignedRides.flatMap (fun ride => ride.rideDetails ++ ["--------------------"]))

/-- Fields of the C++ `Rider` class (src/main.cpp lines 126-130). -/
structure Rider where
  riderID : String
  name : String
  requestedRides : List Ride

/-- One primitive side effect of a `Rider` member function: printing a line
or storing a ride into `requestedRides`. -/
inductive Event where
  | out (line : String)
  | store (ride : Ride)

/-- Method `Rider::requestRide` (src/main.cpp lines 138-142) as its ordered list of
side effects: print the notification ("\n" then the text line), print the
five detail lines of the ride, then push_back the ride. -/
def Rider.requestRideEvents (rd : Rider) (ride : Ride) : List Event :=
  [Event.out "", Event.out (rd.name ++ " requested a ride.")] ++
  ride.rideDetails.map Event.out ++ [Event.store ride]

/-- Interpret a list of `Event`s in order, producing the final `Rider` state
and the printed lines. -/
def Rider.runEvents : Rider → List Event → Rider × List String
  | rd, [] => (rd, [])
  | rd, Event.out line :: rest =>
      let res := Rider.runEvents rd rest
      (res.1, line :: res.2)
  | rd, Event.store ride :: rest =>
      Rider.runEvents { rd with requestedRides := rd.requestedRides ++ [ride] } rest

/-- Method `Rider::requestRide` as a state/output function: the interpretation of
its event list. -/
def Rider.requestRide (rd : Rider) (ride : Ride) : Rider × List String :=
  rd.runEvents (rd.requestRideEvents ride)

/-- Method `Rider::viewRides` (src/main.cpp lines 145-156). -/
def Rider.viewRides (rd : Rider) : List String :=
  ["",
   "--- " ++ rd.name ++ "\x27s Ride History ---"] ++
  (if rd.requestedRides.isEmpty then
    ["  No rides requested yet."]
  else
    rd.requestedRides.flatMap (fun ride => ride.rideDetails ++ ["--------------------"]))

/-- Appending a whole list of rides to a driver, one `addRide` at a time
(the call sequence of src/main.cpp lines 189-191). -/
def Driver.addRides (d : Driver) (rides : List Ride) : Driver :=
  rides.foldl Driver.addRide d

/-- Requesting a whole list of rides, one `requestRide` at a time (the call
sequence of src/main.cpp lines 173-175); output is discarded here. -/
def Rider.requestRides (rd : Rider) (rides : List Ride) : Rider :=
  rides.foldl (fun st ride => (st.requestRide ride).1) rd

/-- A ride together with the number of times `calculateFare` has been
invoked on it, for the once-at-construction claims. -/
structure TrackedRide where
  ride : Ride
  fareCalcCount : Nat
deriving DecidableEq

/-- Constructing a `StandardRide` invokes `calculateFare` exactly once
(src/main.cpp line 59). -/
def mkStandardRideTracked (id pickup dropoff : String) (dist : ℚ) : TrackedRide :=
  { ride := mkStandardRide id pickup dropoff dist, fareCalcCount := 1 }

/-- Constructing a `PremiumRide` invokes `calculateFare` exactly once
(src/main.cpp line 79). -/
def mkPremiumRideTracked (id pickup dropoff : String) (dist : ℚ) : TrackedRide :=
  { ride := mkPremiumRide id pickup dropoff dist, fareCalcCount := 1 }

/-- The `systemRides` vector built by `demonstrateSystemFunctionality`
(src/main.cpp lines 202-206), with invocation counts. -/
def systemRidesTracked : List TrackedRide :=
  [mkStandardRideTracked "SysR01" "Library" "Cafe" 7.0,
   mkPremiumRideTracked "SysR02" "Mall" "Home" 4.5,
   mkStandardRideTracked "SysR03" "Gym" "Cafe" 2.0,
   mkPremiumRideTracked "SysR04" "School" "Park" 12.0]

/-- The body of the demonstration loop (src/main.cpp lines 209-217) for one
ride: it calls `calculateFare` once more on the already-constructed ride. -/
def demoLoopStep (t : TrackedRide) : TrackedRide :=
  { ride := (t.ride.calculateFare).1, fareCalcCount := t.fareCalcCount + 1 }

/-- The `systemRides` after the demonstration loop has run over them. -/
def systemRidesAfterDemoLoop : List TrackedRide :=
  systemRidesTracked.map demoLoopStep

/-- Evaluation rule for `formatFixed` when the scaled value is an exact
integer, so that `round` disappears. -/
lemma formatFixed_eval (prec : Nat) (q : ℚ) (z : ℤ) (h : q * (10 : ℚ) ^ prec = (z : ℚ)) :
    formatFixed prec q =
      (if z < 0 then "-" else "") ++
      (if prec = 0 then toString z.natAbs
       else toString (z.natAbs / 10 ^ prec) ++ "." ++
            String.mk (padDigits prec (z.natAbs % 10 ^ prec))) := by
  unfold formatFixed
  rw [h, round_intCast]
  by_cases hp : prec = 0 <;> simp [hp, String.append_assoc]

/-- Lemma: `padDigits` always produces exactly `w` characters. -/
lemma padDigits_length (w n : Nat) : (padDigits w n).length = w := by
  induction w generalizing n with
  | zero => rfl
  | succ w ih => simp [padDigits, ih]

/-- Every character produced by `padDigits` is a decimal digit. -/
lemma padDigits_isDigit (w n : Nat) : ∀ c ∈ padDigits w n, c.isDigit = true := by
  induction w generalizing n with
  | zero => intro c hc; simp [padDigits] at hc
  | succ w ih =>
      intro c hc
      simp only [padDigits, List.mem_append, List.mem_singleton] at hc
      rcases hc with hc | hc
      · exact ih (n / 10) c hc
      · have hdig : ∀ m, m < 10 → (Char.ofNat (48 + m)).isDigit = true := by decide
        exact hc ▸ hdig (n % 10) (Nat.mod_lt _ (by decide))

/-- For positive precision, `formatFixed` is an integer part, a dot, and
exactly `prec` fractional digit characters. -/
lemma formatFixed_decompose (prec : Nat) (q : ℚ) (hp : prec ≠ 0) :
    ∃ intPart : String,
      formatFixed prec q =
        intPart ++ "." ++
          String.mk (padDigits prec ((round (q * (10 : ℚ) ^ prec)).natAbs % 10 ^ prec)) := by
  refine ⟨(if round (q * (10 : ℚ) ^ prec) < 0 then "-" else "") ++
    toString ((round (q * (10 : ℚ) ^ prec)).natAbs / 10 ^ prec), ?_⟩
  unfold formatFixed
  simp [hp, String.append_assoc]

/-- Interpreting a block of prints followed by a single store: the prints
come out in order and the ride lands at the end of `requestedRides`. -/
lemma runEvents_outs_then_store (outs : List String) (rd : Rider) (ride : Ride) :
    rd.runEvents (outs.map Event.out ++ [Event.store ride]) =
      ({ rd with requestedRides := rd.requestedRides ++ [ride] }, outs) := by
  induction outs generalizing rd with
  | nil => rfl
  | cons a as ih => simp [Rider.runEvents, ih]

/-- The state part of `requestRide`: the ride is appended at the end. -/
lemma requestRide_fst (rd : Rider) (ride : Ride) :
    (rd.requestRide ride).1 = { rd with requestedRides := rd.requestedRides ++ [ride] } := by
  have h := runEvents_outs_then_store
    (["", rd.name ++ " requested a ride."] ++ ride.rideDetails) rd ride
  simp only [Rider.requestRide, Rider.requestRideEvents]
  simp only [List.map_append] at h
  simpa [List.append_assoc] using congrArg Prod.fst h

/-- Lemma: `addRides` appends the given rides, in order, at the end. -/
lemma addRides_assigned (rides : List Ride) (d : Driver) :
    (d.addRides rides).assignedRides = d.assignedRides ++ rides := by
  induction rides generalizing d with
  | nil => simp [Driver.addRides]
  | cons r rs ih =>
      simp [Driver.addRides] at ih ⊢
      rw [ih]
      simp [Driver.addRide]

/-- Lemma: `requestRides` appends the given rides, in order, at the end. -/
lemma requestRides_requested (rides : List Ride) (rd : Rider) :
    (rd.requestRides rides).requestedRides = rd.requestedRides ++ rides := by
  induction rides generalizing rd with
  | nil => simp [Rider.requestRides]
  | cons r rs ih =>
      simp [Rider.requestRides] at ih ⊢
      rw [requestRide_fst, ih]
      simp

/-- Claim C1: for every id, pickup, dropoff and distance d, constructing a
StandardRide yields an object whose stored fare equals 2.0 × d, and
`getFare` returns that value. -/
theorem standardRide_fare_formula (id pickup dropoff : String) (d : ℚ) :
    (mkStandardRide id pickup dropoff d).fare = 2.0 * d ∧
    (mkStandardRide id pickup dropoff d).getFare = 2.0 * d := by
  constructor <;>
    simp [mkStandardRide, mkRideBase, Ride.calculateFare, Ride.getFare,
      STANDARD_RATE_PER_MILE] <;>
    ring

/-- Claim C2: for every id, pickup, dropoff and distance d, constructing a
PremiumRide yields an object whose stored fare equals 3.5 × d + 5.0, and
`getFare` returns that value. -/
theorem premiumRide_fare_formula (id pickup dropoff : String) (d : ℚ) :
    (mkPremiumRide id pickup dropoff d).fare = 3.5 * d + 5.0 ∧
    (mkPremiumRide id pickup dropoff d).getFare = 3.5 * d + 5.0 := by
  constructor <;>
    simp [mkPremiumRide, mkRideBase, Ride.calculateFare, Ride.getFare,
      PREMIUM_RATE_PER_MILE, PREMIUM_SURCHARGE] <;>
    ring

/-- Claim C3 counterexample: after the demonstration loop
(src/main.cpp lines 209-217) every one of the four `systemRides` has had
`calculateFare` invoked twice (once by its constructor, once by the loop),
so `calculateFare` is not invoked exactly once on every Ride of the
program, and the fare field is recomputed after construction. -/
theorem systemRides_calculateFare_invoked_twice :
    systemRidesAfterDemoLoop.map TrackedRide.fareCalcCount = [2, 2, 2, 2] ∧
    systemRidesAfterDemoLoop.map TrackedRide.fareCalcCount ≠ [1, 1, 1, 1] := by
  exact ⟨rfl, by decide⟩

/-- Claim C3, amended: the fare of every Ride is set by one `calculateFare`
invocation at construction; the four `systemRides` receive exactly one
further invocation from the demonstration loop, and that recomputation
leaves every ride (hence every fare) unchanged. -/
theorem fare_set_at_construction_and_stable :
    (∀ (id pickup dropoff : String) (d : ℚ),
        (mkStandardRideTracked id pickup dropoff d).fareCalcCount = 1 ∧
        (mkPremiumRideTracked id pickup dropoff d).fareCalcCount = 1) ∧
    systemRidesAfterDemoLoop.map TrackedRide.fareCalcCount = [2, 2, 2, 2] ∧
    systemRidesAfterDemoLoop.map TrackedRide.ride = systemRidesTracked.map TrackedRide.ride := by
  exact ⟨fun id pickup dropoff d => ⟨rfl, rfl⟩, rfl, rfl⟩

/-- Claim C4: `requestRide` first prints the notification naming the rider,
then the details of the ride, and only then stores the ride: its event list is
print-events followed by a single final store event, the resulting state
has the ride appended, and the printed lines are exactly the notification
followed by the details. -/
theorem requestRide_prints_before_storing (rd : Rider) (ride : Ride) :
    rd.requestRideEvents ride =
      ((["", rd.name ++ " requested a ride."] ++ ride.rideDetails).map Event.out) ++
        [Event.store ride] ∧
    (rd.requestRide ride).1.requestedRides = rd.requestedRides ++ [ride] ∧
    (rd.requestRide ride).2 = ["", rd.name ++ " requested a ride."] ++ ride.rideDetails := by
  refine ⟨by simp [Rider.requestRideEvents], ?_, ?_⟩
  · rw [requestRide_fst]
  · have h := runEvents_outs_then_store
      (["", rd.name ++ " requested a ride."] ++ ride.rideDetails) rd ride
    simp only [List.map_append] at h
    simpa [Rider.requestRide, Rider.requestRideEvents, List.append_assoc] using
      congrArg Prod.snd h

/-- Claim C5: appending rides via `addRide` / `requestRide` yields a
history holding exactly the appended rides in order (so N appends give
length N, FIFO, no deduplication or reordering), and `getDriverInfo` /
`viewRides` iterate the stored rides in that insertion order. -/
theorem history_fifo_and_iteration_order (d : Driver) (rd : Rider) (rides : List Ride) :
    (d.addRides rides).assignedRides = d.assignedRides ++ rides ∧
    (rd.requestRides rides).requestedRides = rd.requestedRides ++ rides ∧
    (d.addRides rides).assignedRides.length = d.assignedRides.length + rides.length ∧
    (∀ (did nm : String) (rt : ℚ) (r : Ride) (rs : List Ride),
      (Driver.mk did nm rt (r :: rs)).getDriverInfo =
        ["", "--- Driver Details ---", "Driver ID: " ++ did, "Name: " ++ nm,
         "Rating: " ++ formatFixed 1 rt ++ "/5.0",
         "Completed Rides (" ++ toString (r :: rs).length ++ "):"] ++
        (r :: rs).flatMap (fun ride => ride.rideDetails ++ ["--------------------"])) ∧
    (∀ (rid nm : String) (r : Ride) (rs : List Ride),
      (Rider.mk rid nm (r :: rs)).viewRides =
        ["", "--- " ++ nm ++ "\x27s Ride History ---"] ++
        (r :: rs).flatMap (fun ride => ride.rideDetails ++ ["--------------------"])) := by
  refine ⟨addRides_assigned rides d, requestRides_requested rides rd, ?_, ?_, ?_⟩
  · rw [addRides_assigned rides d]; simp
  · intro did nm rt r rs
    simp [Driver.getDriverInfo]
  · intro rid nm r rs
    simp [Rider.viewRides]

/-- Claim C6: a Driver with empty `assignedRides` and a Rider with empty
`requestedRides` print the explicit "no rides" sentinel line and no ride
detail blocks. -/
theorem empty_history_prints_sentinel (did dname rid rname : String) (rt : ℚ) :
    (Driver.mk did dname rt []).getDriverInfo =
      ["", "--- Driver Details ---", "Driver ID: " ++ did, "Name: " ++ dname,
       "Rating: " ++ formatFixed 1 rt ++ "/5.0", "Completed Rides (0):",
       "  No rides completed yet."] ∧
    (Rider.mk rid rname []).viewRides =
      ["", "--- " ++ rname ++ "\x27s Ride History ---", "  No rides requested yet."] := by
  constructor
  · simp [Driver.getDriverInfo]
    rfl
  · simp [Rider.viewRides]

/-- Claim C7: `StandardRide("S001","Downtown","Suburb A",10.5)` has fare 21
(printed "21.00"), `PremiumRide("P002","Airport","City Center",25.0)` has
fare 92.5 (printed "92.50"), and a Driver holding exactly these two rides
in that order reports the header "Completed Rides (2):" followed by the two
detail blocks in that order. -/
theorem demo_driver_reports_two_rides (did dname : String) (rt : ℚ) :
    (mkStandardRide "S001" "Downtown" "Suburb A" 10.5).fare = 21 ∧
    formatFixed 2 ((mkStandardRide "S001" "Downtown" "Suburb A" 10.5).fare) = "21.00" ∧
    (mkPremiumRide "P002" "Airport" "City Center" 25.0).fare = 92.5 ∧
    formatFixed 2 ((mkPremiumRide "P002" "Airport" "City Center" 25.0).fare) = "92.50" ∧
    (((Driver.mk did dname rt []).addRide
        (mkStandardRide "S001" "Downtown" "Suburb A" 10.5)).addRide
        (mkPremiumRide "P002" "Airport" "City Center" 25.0)).getDriverInfo =
      ["", "--- Driver Details ---", "Driver ID: " ++ did, "Name: " ++ dname,
       "Rating: " ++ formatFixed 1 rt ++ "/5.0", "Completed Rides (2):"] ++
      (mkStandardRide "S001" "Downtown" "Suburb A" 10.5).rideDetails ++
      ["--------------------"] ++
      (mkPremiumRide "P002" "Airport" "City Center" 25.0).rideDetails ++
      ["--------------------"] := by
  have hS : (mkStandardRide "S001" "Downtown" "Suburb A" 10.5).fare = 21 := by
    simp [mkStandardRide, mkRideBase, Ride.calculateFare, STANDARD_RATE_PER_MILE]
    norm_num
  have hP : (mkPremiumRide "P002" "Airport" "City Center" 25.0).fare = 92.5 := by
    simp [mkPremiumRide, mkRideBase, Ride.calculateFare, PREMIUM_RATE_PER_MILE,
      PREMIUM_SURCHARGE]
    norm_num
  refine ⟨hS, ?_, hP, ?_, ?_⟩
  · rw [hS, formatFixed_eval 2 21 2100 (by norm_num)]
    rfl
  · rw [hP, formatFixed_eval 2 (92.5 : ℚ) 9250 (by norm_num)]
    rfl
  · simp [Driver.addRide, Driver.getDriverInfo]
    rfl

/-- Claim C8: every line printed by `rideDetails` renders the distance with
exactly one fractional digit and the fare with exactly two fractional
digits: the two numeric fields are an integer part, a dot, and exactly
1 (resp. 2) digit characters, whatever the values are. -/
theorem rideDetails_fixed_precision (r : Ride) :
    ∃ (dInt fInt : String) (dFrac fFrac : List Char),
      r.rideDetails =
        ["Ride ID: " ++ r.rideID,
         "  Pickup: " ++ r.pickupLocation,
         "  Dropoff: " ++ r.dropoffLocation,
         "  Distance: " ++ (dInt ++ "." ++ String.mk dFrac) ++ " miles",
         "  Fare: $" ++ (fInt ++ "." ++ String.mk fFrac)] ∧
      dFrac.length = 1 ∧ fFrac.length = 2 ∧
      (∀ c ∈ dFrac, c.isDigit = true) ∧ (∀ c ∈ fFrac, c.isDigit = true) := by
  obtain ⟨dInt, hd⟩ := formatFixed_decompose 1 r.distance (by decide)
  obtain ⟨fInt, hf⟩ := formatFixed_decompose 2 r.fare (by decide)
  refine ⟨dInt, fInt,
    padDigits 1 ((round (r.distance * (10 : ℚ) ^ 1)).natAbs % 10 ^ 1),
    padDigits 2 ((round (r.fare * (10 : ℚ) ^ 2)).natAbs % 10 ^ 2), ?_,
    padDigits_length _ _, padDigits_length _ _,
    padDigits_isDigit _ _, padDigits_isDigit _ _⟩
  simp [Ride.rideDetails, hd, hf]

/-- Claim C9: `calculateFare` prints nothing and changes no field other
than `fare`: id, pickup, dropoff, distance (and the dynamic type) are all
preserved. -/
theorem calculateFare_frame_condition (r : Ride) :
    (r.calculateFare).2 = [] ∧
    (r.calculateFare).1.rideID = r.rideID ∧
    (r.calculateFare).1.pickupLocation = r.pickupLocation ∧
    (r.calculateFare).1.dropoffLocation = r.dropoffLocation ∧
    (r.calculateFare).1.distance = r.distance ∧
    (r.calculateFare).1.kind = r.kind := by
  cases h : r.kind <;> simp [Ride.calculateFare, h]

/-- Claim C10: `calculateFare` is idempotent: on a freshly constructed
StandardRide or PremiumRide a further invocation returns the identical
object (and prints nothing), on any ride a second invocation after a first
changes nothing, and the extra invocation in the demonstration loop leaves all
four `systemRides` unchanged. -/
theorem calculateFare_idempotent (id pickup dropoff : String) (d : ℚ) (r : Ride) :
    (mkStandardRide id pickup dropoff d).calculateFare =
      (mkStandardRide id pickup dropoff d, []) ∧
    (mkPremiumRide id pickup dropoff d).calculateFare =
      (mkPremiumRide id pickup dropoff d, []) ∧
    ((r.calculateFare).1.calculateFare).1 = (r.calculateFare).1 ∧
    systemRidesAfterDemoLoop.map TrackedRide.ride = systemRidesTracked.map TrackedRide.ride := by
  refine ⟨rfl, rfl, ?_, rfl⟩
  cases h : r.kind <;> simp [Ride.calculateFare, h]

end RideSharing
